import Mathlib

/-!
Shallow embedding of the plan_day_bot repository (Python) in Lean 4.

The embedding follows the source files:
  app/services/plan_builder.py   (PlanBuilder, PlanSourceItem)
  app/services/llm.py            (HuggingFaceLLMClient.generate)
  app/services/todoist.py        (TodoistClient.fetch_tasks, TodoistTask)
  app/services/google_calendar.py (GoogleCalendarClient.fetch_events, CalendarEvent)
  app/telegram_bot.py            (handle_plan_command, handle_adjust_plan_command)

Python strings are Lean `String`s; Python `Optional[T]` is `Option T`;
Python truthiness of optional strings is made explicit (None and "" are falsy).
Machine-level concerns (network, asyncio) are modelled by passing the backend
response in as a parameter.
-/

/-! ### Python string helpers -/

/-- Python `str.strip()` on the character-list level: drop whitespace from
both ends. -/
def pyStripAux (l : List Char) : List Char :=
  ((l.dropWhile Char.isWhitespace).reverse.dropWhile Char.isWhitespace).reverse

/-- Python `str.strip()`. -/
def pyStrip (s : String) : String :=
  String.mk (pyStripAux s.data)

/-- Python truthiness of an `Optional[str]`: `None` and `""` are falsy. -/
def pyTruthyStr : Option String → Bool
  | none => false
  | some s => s ≠ ""

/-- Python `a or b` on two `Optional[str]` values (first truthy wins). -/
def pyOrOptStr (a b : Option String) : Option String :=
  match a with
  | some s => if s = "" then b else some s
  | none => b

theorem strData_append (s t : String) : (s ++ t).data = s.data ++ t.data := rfl

theorem strExt {s t : String} (h : s.data = t.data) : s = t := by
  cases s; cases t; exact congrArg String.mk h

/-! ### Timezones and datetimes

A Python `tzinfo` object is modelled by its name (as returned by `tzname`,
which may be `None`) and a fixed UTC offset in minutes.  A `datetime` is
modelled by its wall-clock reading in minutes together with its optional
`tzinfo` (absent = naive). -/

structure Tz where
  name : Option String
  offset : Int
deriving DecidableEq, Repr

def utcTz : Tz := ⟨some "UTC", 0⟩

structure PyDateTime where
  wall : Int
  tz : Option Tz
deriving DecidableEq, Repr

/-- Offset of an optional tz; a naive datetime is read at offset 0. -/
def tzOffsetOf : Option Tz → Int
  | none => 0
  | some t => t.offset

/-- Absolute instant (minutes) of a datetime. -/
def absMinutes (dt : PyDateTime) : Int :=
  dt.wall - tzOffsetOf dt.tz

/-- Python `datetime.astimezone(tz)`: same instant, new tzinfo. -/
def astimezone (tz : Tz) (dt : PyDateTime) : PyDateTime :=
  ⟨absMinutes dt + tz.offset, some tz⟩

def padNum (w : Nat) (n : Nat) : String :=
  let s := toString n
  if s.length < w then String.mk (List.replicate (w - s.length) '0') ++ s else s

/-- Civil date from a day count relative to 1970-01-01 (Gregorian). -/
def civilFromDays (z0 : Int) : Int × Int × Int :=
  let z := z0 + 719468
  let era := (if z ≥ 0 then z else z - 146096).tdiv 146097
  let doe := z - era * 146097
  let yoe := (doe - doe.tdiv 1460 + doe.tdiv 36524 - doe.tdiv 146096).tdiv 365
  let y := yoe + era * 400
  let doy := doe - (365 * yoe + yoe.tdiv 4 - yoe.tdiv 100)
  let mp := (5 * doy + 2).tdiv 153
  let d := doy - (153 * mp + 2).tdiv 5 + 1
  let m := if mp < 10 then mp + 3 else mp - 9
  (if m ≤ 2 then y + 1 else y, m, d)

def padInt (w : Nat) (n : Int) : String :=
  if n < 0 then "-" ++ padNum w (-n).toNat else padNum w n.toNat

/-- Python `dt.strftime("%Y-%m-%d %H:%M")` on a wall-clock minute count. -/
def strftimeYmdHm (wall : Int) : String :=
  let days := wall.ediv 1440
  let rem := (wall.emod 1440).toNat
  let ymd := civilFromDays days
  padInt 4 ymd.1 ++ "-" ++ padInt 2 ymd.2.1 ++ "-" ++ padInt 2 ymd.2.2 ++ " " ++
    padNum 2 (rem / 60) ++ ":" ++ padNum 2 (rem % 60)

/-! ### PlanSourceItem and the timezone resolver (plan_builder.py) -/

structure PlanSourceItem where
  title : String
  start : Option PyDateTime
  end_ : Option PyDateTime
  item_type : String
deriving DecidableEq, Repr

/-- `PlanBuilder._detect_timezone`: scan items in order; per item, if its
`start` carries a tzinfo return it, else if its `end` carries one return
that, else move on; return the fallback when the scan finds nothing. -/
def detect_timezone (items : List PlanSourceItem) (fallback : Tz) : Tz :=
  match items with
  | [] => fallback
  | item :: rest =>
    match item.start with
    | some dt =>
      match dt.tz with
      | some tz => tz
      | none =>
        match item.end_ with
        | some dt2 =>
          match dt2.tz with
          | some tz2 => tz2
          | none => detect_timezone rest fallback
        | none => detect_timezone rest fallback
    | none =>
      match item.end_ with
      | some dt2 =>
        match dt2.tz with
        | some tz2 => tz2
        | none => detect_timezone rest fallback
      | none => detect_timezone rest fallback

/-- The timezone an item itself offers: its start's tz if any, else its
end's tz if any. -/
def itemTz (i : PlanSourceItem) : Option Tz :=
  match i.start.bind (·.tz) with
  | some tz => some tz
  | none => i.end_.bind (·.tz)

/-- The per-item single-pass resolver, phrased through `findSome?`. -/
def singlePassResolve (items : List PlanSourceItem) (fallback : Tz) : Tz :=
  (items.findSome? itemTz).getD fallback

/-- Modelled from the spec wording of claim C2: a two-pass resolver that
first looks for any item whose `start` carries a timezone, and only if no
item does, looks for any item whose `end` carries one. -/
def specTwoPassResolve (items : List PlanSourceItem) (fallback : Tz) : Tz :=
  match items.findSome? (fun i => i.start.bind (·.tz)) with
  | some tz => tz
  | none =>
    match items.findSome? (fun i => i.end_.bind (·.tz)) with
    | some tz => tz
    | none => fallback

theorem detect_timezone_eq_singlePass (items : List PlanSourceItem) (fallback : Tz) :
    detect_timezone items fallback = singlePassResolve items fallback := by
  induction items with
  | nil => rfl
  | cons i rest ih =>
    unfold detect_timezone singlePassResolve
    simp only [List.findSome?_cons]
    cases hs : i.start with
    | none =>
      cases he : i.end_ with
      | none =>
        simp [itemTz, hs, he, ih, singlePassResolve]
      | some dt2 =>
        cases ht2 : dt2.tz with
        | none => simp [itemTz, hs, he, ht2, ih, singlePassResolve]
        | some tz2 => simp [itemTz, hs, he, ht2]
    | some dt =>
      cases ht : dt.tz with
      | none =>
        cases he : i.end_ with
        | none => simp [itemTz, hs, ht, he, ih, singlePassResolve]
        | some dt2 =>
          cases ht2 : dt2.tz with
          | none => simp [itemTz, hs, ht, he, ht2, ih, singlePassResolve]
          | some tz2 => simp [itemTz, hs, ht, he, ht2]
      | some tz => simp [itemTz, hs, ht]

theorem findSome?_eq_none_of_all_none {α β : Type} {f : α → Option β}
    {l : List α} (h : ∀ a ∈ l, f a = none) : l.findSome? f = none := by
  induction l with
  | nil => rfl
  | cons x xs ih =>
    rw [List.findSome?_cons]
    rw [h x (by simp)]
    exact ih (fun a ha => h a (by simp [ha]))

/-! ### Lemmas about `pyStrip` -/

theorem wsDrop_eq_self_of_head {l : List Char} {c : Char} (h : l.head? = some c)
    (hc : c.isWhitespace = false) : l.dropWhile Char.isWhitespace = l := by
  cases l with
  | nil => simp at h
  | cons a t =>
    simp only [List.head?_cons, Option.some.injEq] at h
    subst h
    exact List.dropWhile_cons_of_neg (by simp [hc])

theorem head?_append_left {α : Type} {l : List α} {c : α} (h : l.head? = some c)
    (m : List α) : (l ++ m).head? = some c := by
  cases l with
  | nil => simp at h
  | cons a t => simpa using h

theorem pyStripAux_eq_self {l : List Char} {c d : Char}
    (h1 : l.head? = some c) (hc : c.isWhitespace = false)
    (h2 : l.reverse.head? = some d) (hd : d.isWhitespace = false) :
    pyStripAux l = l := by
  unfold pyStripAux
  rw [wsDrop_eq_self_of_head h1 hc, wsDrop_eq_self_of_head h2 hd,
    List.reverse_reverse]

theorem pyStripAux_cons_nl (l : List Char) :
    pyStripAux ('\n' :: l) = pyStripAux l := by
  unfold pyStripAux
  rw [List.dropWhile_cons_of_pos (by decide)]

theorem pyStripAux_append_nl {l : List Char} {c : Char} (h : l.head? = some c)
    (hc : c.isWhitespace = false) :
    pyStripAux (l ++ ['\n']) = pyStripAux l := by
  unfold pyStripAux
  rw [wsDrop_eq_self_of_head (head?_append_left h _) hc,
    wsDrop_eq_self_of_head h hc, List.reverse_append]
  simp only [List.reverse_cons, List.reverse_nil, List.nil_append,
    List.singleton_append]
  rw [List.dropWhile_cons_of_pos (by decide)]

theorem nlData : ("\n" : String).data = ['\n'] := rfl

theorem strAppend_assoc (a b c : String) : a ++ b ++ c = a ++ (b ++ c) :=
  strExt (by simp [strData_append, List.append_assoc])

/-- Stripping a template of shape `"\n" ++ a ++ m ++ z ++ "\n"` where `a`
starts and `z` ends with a non-whitespace character removes exactly the two
sentinel newlines. -/
theorem pyStrip_template (a m z : String) {ca cz : Char}
    (ha : a.data.head? = some ca) (hca : ca.isWhitespace = false)
    (hz : z.data.reverse.head? = some cz) (hcz : cz.isWhitespace = false) :
    pyStrip ("\n" ++ a ++ m ++ z ++ "\n") = a ++ m ++ z := by
  apply strExt
  show pyStripAux (("\n" ++ a ++ m ++ z ++ "\n").data) = (a ++ m ++ z).data
  have hflat : ("\n" ++ a ++ m ++ z ++ "\n").data
      = '\n' :: ((a.data ++ m.data ++ z.data) ++ ['\n']) := by
    simp [strData_append, nlData, List.append_assoc]
  have hhead : (a.data ++ m.data ++ z.data).head? = some ca := by
    rw [List.append_assoc]
    exact head?_append_left ha _
  have hrev : (a.data ++ m.data ++ z.data).reverse.head? = some cz := by
    rw [List.reverse_append]
    exact head?_append_left hz _
  rw [hflat, pyStripAux_cons_nl, pyStripAux_append_nl hhead hca,
    pyStripAux_eq_self hhead hca hrev hcz]
  simp [strData_append, List.append_assoc]

/-- A string that starts and ends with a non-whitespace character is a fixed
point of `pyStrip`. -/
theorem pyStrip_eq_self {s : String} {c d : Char} (h1 : s.data.head? = some c)
    (hc : c.isWhitespace = false) (h2 : s.data.reverse.head? = some d)
    (hd : d.isWhitespace = false) : pyStrip s = s :=
  strExt (pyStripAux_eq_self h1 hc h2 hd)

theorem str_ne_empty_of_head {s : String} {c : Char}
    (h : s.data.head? = some c) : s ≠ "" := by
  intro he
  subst he
  simp [show ("" : String).data = [] from rfl] at h

theorem head?_strAppend {s t : String} {c : Char} (h : s.data.head? = some c) :
    (s ++ t).data.head? = some c := by
  rw [strData_append]
  exact head?_append_left h _

/-! ### Claim C2 -/

def c2TzA : Tz := ⟨some "A", 60⟩

def c2TzB : Tz := ⟨some "B", 120⟩

def c2Items : List PlanSourceItem :=
  [⟨"meeting", none, some ⟨0, some c2TzA⟩, "event"⟩,
   ⟨"task", some ⟨0, some c2TzB⟩, none, "task"⟩]

/-- Claim C2, counterexample: the claim says the resolver first returns the
timezone of the first item whose start carries one ("B" here, on the second
item), and end timezones are consulted only when no item has a start
timezone.  The code scans item by item, checking start then end of the same
item, so the first item's end timezone "A" wins instead. -/
theorem claim_C2_two_pass_counterexample :
    detect_timezone c2Items utcTz = c2TzA ∧
    specTwoPassResolve c2Items utcTz = c2TzB ∧
    c2TzA ≠ c2TzB := by
  refine ⟨rfl, rfl, ?_⟩
  decide

/-- Claim C2 (amended): the resolver makes a single pass over the items in
their given order; the first item carrying a timezone-bearing start or end
supplies the result (start preferred within that item), and the fallback is
returned when no item carries a timezone-bearing start or end. -/
theorem claim_C2_single_pass_resolver (items : List PlanSourceItem) (fallback : Tz) :
    detect_timezone items fallback = singlePassResolve items fallback ∧
    ((∀ i ∈ items, itemTz i = none) → detect_timezone items fallback = fallback) := by
  refine ⟨detect_timezone_eq_singlePass items fallback, fun h => ?_⟩
  rw [detect_timezone_eq_singlePass, singlePassResolve,
    findSome?_eq_none_of_all_none h]
  rfl

theorem claim_C2_single_pass_resolver_witness :
    detect_timezone [⟨"t", some ⟨0, none⟩, none, "task"⟩] utcTz =
      singlePassResolve [⟨"t", some ⟨0, none⟩, none, "task"⟩] utcTz ∧
    detect_timezone [⟨"t", some ⟨0, none⟩, none, "task"⟩] utcTz = utcTz :=
  ⟨(claim_C2_single_pass_resolver [⟨"t", some ⟨0, none⟩, none, "task"⟩] utcTz).1,
   (claim_C2_single_pass_resolver [⟨"t", some ⟨0, none⟩, none, "task"⟩] utcTz).2
     (by decide)⟩

/-! ### Prompt renderer (plan_builder.py) -/

/-- `PlanBuilder._format_datetime`. -/
def format_datetime (value : Option PyDateTime) (tzinfo : Tz) : String :=
  match value with
  | none => "не указано"
  | some dt =>
    let local_dt := astimezone tzinfo dt
    let tz_suffix :=
      match tzinfo.name with
      | some n => if n = "" then "" else " (" ++ n ++ ")"
      | none => ""
    strftimeYmdHm local_dt.wall ++ tz_suffix

/-- `tz_label = tz_name or "local time"` in `_build_prompt`. -/
def tz_label_of (tzinfo : Tz) : String :=
  match tzinfo.name with
  | some n => if n = "" then "local time" else n
  | none => "local time"

def event_line (tzinfo : Tz) (event : PlanSourceItem) : String :=
  "- " ++ event.title ++ " (с " ++ format_datetime event.start tzinfo ++
    " до " ++ format_datetime event.end_ tzinfo ++ ")"

/-- Python `"\n".join(lines)`. -/
def joinLines : List String → String
  | [] => ""
  | [x] => x
  | x :: xs => x ++ "\n" ++ joinLines xs

def events_block_of (events : List PlanSourceItem) (tzinfo : Tz) : String :=
  match events with
  | [] => "- событий нет"
  | _ => joinLines (events.map (event_line tzinfo))

def task_line (tzinfo : Tz) (idx : Nat) (task : PlanSourceItem) : String :=
  toString idx ++ ". " ++ task.title ++ " (желательно завершить к " ++
    format_datetime task.start tzinfo ++ ")"

/-- `enumerate(tasks, start=idx)` rendered to lines. -/
def task_lines (tzinfo : Tz) : Nat → List PlanSourceItem → List String
  | _, [] => []
  | idx, t :: ts => task_line tzinfo idx t :: task_lines tzinfo (idx + 1) ts

def tasks_block_of (tasks : List PlanSourceItem) (tzinfo : Tz) : String :=
  match tasks with
  | [] => "1. Нет задач, но добавь полезные привычки"
  | _ => joinLines (task_lines tzinfo 1 tasks)

/-- `instructions.strip() if instructions else "нет"`. -/
def instructions_block_of (instructions : Option String) : String :=
  match instructions with
  | none => "нет"
  | some s => if s = "" then "нет" else pyStrip s

def buildIntro1 : String :=
  "Ты — персональный ассистент по тайм-менеджменту. Составь подробное расписание на один день на русском языке, используя метод тайм-блокинга. Пожалуйста, следуй правилам:\n- Всегда используй локальное время ("

def buildIntro2 : String :=
  ") и формат `HH:MM–HH:MM — описание блока`.\n- Объедини события календаря и задачи, равномерно распределяя их по дню. Учитывай дедлайны.\n- Добавь необходимые ежедневные рутины: подъем, завтрак, обед, ужин, отдых, подготовку ко сну.\n- Если есть свободные окна, заполни их полезными делами или восстановлением.\n- В конце добавь короткий блок \"Итоги дня\" с напоминанием про главное.\n\nТекущее время: "

def buildEventsHdr : String := ").\n\nСобытия календаря на сегодня и завтра:\n"

def buildTasksHdr : String := "\n\nЗадачи:\n"

def buildInstrHdr : String := "\n\nДополнительные инструкции пользователя: "

def buildClose : String :=
  ".\n\nСформируй только расписание без дополнительных пояснений."

/-- `PlanBuilder._build_prompt`: the f-string template (which opens and
closes with a newline) followed by `.strip()`. -/
def build_prompt (now : PyDateTime) (timezone_info : Tz)
    (tasks events : List PlanSourceItem) (instructions : Option String) : String :=
  pyStrip ("\n" ++ buildIntro1 ++ tz_label_of timezone_info ++ buildIntro2 ++
    strftimeYmdHm (astimezone timezone_info now).wall ++ " (" ++
    tz_label_of timezone_info ++ buildEventsHdr ++
    events_block_of events timezone_info ++ buildTasksHdr ++
    tasks_block_of tasks timezone_info ++ buildInstrHdr ++
    instructions_block_of instructions ++ buildClose ++ "\n")

def promptHead (now : PyDateTime) (timezone_info : Tz) : String :=
  buildIntro1 ++ tz_label_of timezone_info ++ buildIntro2 ++
    strftimeYmdHm (astimezone timezone_info now).wall ++ " (" ++
    tz_label_of timezone_info ++ buildEventsHdr

def promptTail (instructions : Option String) : String :=
  buildInstrHdr ++ instructions_block_of instructions ++ buildClose

/-- The build prompt, after the strip, is exactly the fixed head, the events
block, the fixed tasks header, the tasks block, and the fixed tail. -/
theorem build_prompt_decomp (now : PyDateTime) (ti : Tz)
    (tasks events : List PlanSourceItem) (instructions : Option String) :
    build_prompt now ti tasks events instructions =
      promptHead now ti ++ events_block_of events ti ++ buildTasksHdr ++
        tasks_block_of tasks ti ++ promptTail instructions := by
  unfold build_prompt promptHead promptTail
  have key := pyStrip_template buildIntro1
    (tz_label_of ti ++ buildIntro2 ++
      strftimeYmdHm (astimezone ti now).wall ++ " (" ++ tz_label_of ti ++
      buildEventsHdr ++ events_block_of events ti ++ buildTasksHdr ++
      tasks_block_of tasks ti ++ buildInstrHdr ++
      instructions_block_of instructions)
    buildClose rfl (by decide) rfl (by decide)
  simp only [strAppend_assoc] at key ⊢
  exact key

theorem rev_head?_strAppend {s t : String} {c : Char}
    (h : t.data.reverse.head? = some c) :
    (s ++ t).data.reverse.head? = some c := by
  rw [strData_append, List.reverse_append]
  exact head?_append_left h _

theorem joinLines_head {x : String} {xs : List String} {c : Char}
    (h : x.data.head? = some c) : (joinLines (x :: xs)).data.head? = some c := by
  cases xs with
  | nil => simpa [joinLines] using h
  | cons y ys =>
    show ((x ++ "\n") ++ joinLines (y :: ys)).data.head? = some c
    exact head?_strAppend (head?_strAppend h)

theorem event_line_head (ti : Tz) (e : PlanSourceItem) :
    (event_line ti e).data.head? = some '-' :=
  head?_strAppend (head?_strAppend (head?_strAppend (head?_strAppend
    (head?_strAppend rfl))))

theorem task_line_one_head (ti : Tz) (t : PlanSourceItem) :
    (task_line ti 1 t).data.head? = some '1' :=
  head?_strAppend (head?_strAppend (head?_strAppend (head?_strAppend rfl)))

theorem events_block_of_ne_empty (events : List PlanSourceItem) (ti : Tz) :
    events_block_of events ti ≠ "" := by
  cases events with
  | nil => exact str_ne_empty_of_head (c := '-') rfl
  | cons e es =>
    show joinLines ((e :: es).map (event_line ti)) ≠ ""
    rw [List.map_cons]
    exact str_ne_empty_of_head (joinLines_head (event_line_head ti e))

theorem tasks_block_of_ne_empty (tasks : List PlanSourceItem) (ti : Tz) :
    tasks_block_of tasks ti ≠ "" := by
  cases tasks with
  | nil => exact str_ne_empty_of_head (c := '1') rfl
  | cons t ts =>
    show joinLines (task_lines ti 1 (t :: ts)) ≠ ""
    exact str_ne_empty_of_head (joinLines_head (task_line_one_head ti t))

/-! ### Claim C3 -/

/-- Claim C3: the rendered build prompt decomposes into a fixed head, exactly
one events block, a fixed separator, exactly one tasks block and a fixed
tail; the blocks degrade to the two sentinel lines on empty input and are
never blank. -/
theorem claim_C3_prompt_blocks (now : PyDateTime) (ti : Tz)
    (tasks events : List PlanSourceItem) (instructions : Option String) :
    build_prompt now ti tasks events instructions =
      promptHead now ti ++ events_block_of events ti ++ buildTasksHdr ++
        tasks_block_of tasks ti ++ promptTail instructions
    ∧ (events = [] → events_block_of events ti = "- событий нет")
    ∧ (tasks = [] →
        tasks_block_of tasks ti = "1. Нет задач, но добавь полезные привычки")
    ∧ events_block_of events ti ≠ "" ∧ tasks_block_of tasks ti ≠ "" :=
  ⟨build_prompt_decomp now ti tasks events instructions,
   fun h => by subst h; rfl,
   fun h => by subst h; rfl,
   events_block_of_ne_empty events ti,
   tasks_block_of_ne_empty tasks ti⟩

theorem claim_C3_prompt_blocks_witness :
    build_prompt ⟨0, some utcTz⟩ utcTz [] [] none =
      promptHead ⟨0, some utcTz⟩ utcTz ++ events_block_of [] utcTz ++
        buildTasksHdr ++ tasks_block_of [] utcTz ++ promptTail none
    ∧ events_block_of [] utcTz = "- событий нет"
    ∧ tasks_block_of [] utcTz = "1. Нет задач, но добавь полезные привычки"
    ∧ events_block_of [] utcTz ≠ "" ∧ tasks_block_of [] utcTz ≠ "" := by
  obtain ⟨h1, h2, h3, h4, h5⟩ :=
    claim_C3_prompt_blocks ⟨0, some utcTz⟩ utcTz [] [] none
  exact ⟨h1, h2 rfl, h3 rfl, h4, h5⟩

/-! ### Revise prompt renderer (PlanBuilder.revise_plan) -/

def reviseIntro : String :=
  "Ты — персональный ассистент по тайм-менеджменту. Тебе передано расписание на день, составленное в формате тайм-блокинга. Нужно внести правки и вернуть обновлённый план, следуя правилам:\n- Всегда придерживайся формата `HH:MM–HH:MM — описание блока` и сортировки по времени.\n- Сохраняй события из исходного плана, если изменения их не отменяют.\n- Учитывай взаимное расположение блоков, дедлайны и персональные пожелания.\n- В конце добавь блок \"Итоги дня\".\n\nТекущее расписание:\n"

def reviseModsHdr : String := "\n\nПожелания пользователя: "

def reviseInstrHdr : String := ".\nПостоянные инструкции пользователя: "

def reviseClose : String :=
  ".\n\nВерни только обновлённое расписание без дополнительных пояснений."

/-- The f-string `prompt` built inside `PlanBuilder.revise_plan` (before the
`.strip()` applied at the `generate` call site). -/
def revise_prompt (previous_plan modifications : String)
    (instructions : Option String) : String :=
  "\n" ++ reviseIntro ++ previous_plan ++ reviseModsHdr ++
    pyStrip modifications ++ reviseInstrHdr ++
    instructions_block_of instructions ++ reviseClose ++ "\n"

/-! ### Claim C8 -/

/-- Claim C8: both prompt renderers are deterministic pure functions (equal
inputs give byte-identical output), and the build prompt is whitespace
trimmed at both ends (it is a fixed point of `pyStrip`). -/
theorem claim_C8_renderers_deterministic_trimmed :
    (∀ (n₁ n₂ : PyDateTime) (z₁ z₂ : Tz)
        (ts₁ ts₂ es₁ es₂ : List PlanSourceItem) (i₁ i₂ : Option String),
        n₁ = n₂ → z₁ = z₂ → ts₁ = ts₂ → es₁ = es₂ → i₁ = i₂ →
        build_prompt n₁ z₁ ts₁ es₁ i₁ = build_prompt n₂ z₂ ts₂ es₂ i₂)
    ∧ (∀ (p₁ p₂ m₁ m₂ : String) (i₁ i₂ : Option String),
        p₁ = p₂ → m₁ = m₂ → i₁ = i₂ →
        revise_prompt p₁ m₁ i₁ = revise_prompt p₂ m₂ i₂)
    ∧ (∀ (n : PyDateTime) (z : Tz) (ts es : List PlanSourceItem)
        (i : Option String),
        pyStrip (build_prompt n z ts es i) = build_prompt n z ts es i) := by
  refine ⟨?_, ?_, ?_⟩
  · intro n₁ n₂ z₁ z₂ ts₁ ts₂ es₁ es₂ i₁ i₂ h1 h2 h3 h4 h5
    subst h1; subst h2; subst h3; subst h4; subst h5; rfl
  · intro p₁ p₂ m₁ m₂ i₁ i₂ h1 h2 h3
    subst h1; subst h2; subst h3; rfl
  · intro n z ts es i
    rw [build_prompt_decomp]
    have hhead : (promptHead n z ++ events_block_of es z ++ buildTasksHdr ++
        tasks_block_of ts z ++ promptTail i).data.head? = some 'Т' :=
      head?_strAppend (head?_strAppend (head?_strAppend (head?_strAppend
        (head?_strAppend (head?_strAppend (head?_strAppend (head?_strAppend
          (head?_strAppend (head?_strAppend rfl)))))))))
    have htail : (promptHead n z ++ events_block_of es z ++ buildTasksHdr ++
        tasks_block_of ts z ++ promptTail i).data.reverse.head? = some '.' :=
      rev_head?_strAppend (rev_head?_strAppend rfl)
    exact pyStrip_eq_self hhead (by decide) htail (by decide)

theorem claim_C8_renderers_deterministic_trimmed_witness :
    build_prompt ⟨0, some utcTz⟩ utcTz [] [] none =
      build_prompt ⟨0, some utcTz⟩ utcTz [] [] none
    ∧ revise_prompt "план" "правка" none = revise_prompt "план" "правка" none
    ∧ pyStrip (build_prompt ⟨0, some utcTz⟩ utcTz [] [] none) =
        build_prompt ⟨0, some utcTz⟩ utcTz [] [] none := by
  obtain ⟨h1, h2, h3⟩ := claim_C8_renderers_deterministic_trimmed
  exact ⟨h1 _ _ _ _ _ _ _ _ _ _ rfl rfl rfl rfl rfl,
    h2 _ _ _ _ _ _ rfl rfl rfl, h3 _ _ _ _ _⟩

/-! ### Generation gateway (llm.py HuggingFaceLLMClient.generate)

The OpenAI-compatible chat completion response and the exceptions the
backend call can raise are passed in as data; the `generate` function
reproduces the status handling, the empty-content check and the final
`.strip()`. -/

structure ChatMsg where
  content : Option String
deriving DecidableEq

structure ChatChoice where
  message : ChatMsg
deriving DecidableEq

structure Completion where
  choices : List ChatChoice
deriving DecidableEq

/-- Exceptions the `_call_openai` thread can raise, by Python class:
`openai.APIStatusError` (carrying a status code), an `httpx.HTTPError`, a
`ValueError`, or anything else. -/
inductive GenRaise where
  | apiStatus (code : Nat) (msg : String)
  | httpError (msg : String)
  | valueError (msg : String)
  | other (msg : String)
deriving DecidableEq

inductive BackendResponse where
  | raised (e : GenRaise)
  | completed (c : Completion)
deriving DecidableEq

/-- Exceptions `generate` lets escape, by Python class. -/
inductive GenExc where
  | apiStatus (code : Nat) (msg : String)
  | httpError (msg : String)
  | valueError (msg : String)
  | other (msg : String)
deriving DecidableEq

def retiredMsg (model : String) : String :=
  "Модель Hugging Face \x27" ++ model ++
    "\x27 более недоступна. Обновите переменную окружения HUGGINGFACE_MODEL."

/-- `completion.choices[0].message.content` if choices is non-empty. -/
def completionContent (c : Completion) : Option String :=
  match c.choices with
  | [] => none
  | ch :: _ => ch.message.content

/-- `HuggingFaceLLMClient.generate`: status 410 becomes the model-retired
`ValueError`, other statuses and other exceptions are re-raised, a missing
or empty content raises the empty-response `ValueError`, and a successful
content is returned stripped. -/
def generate (model : String) (resp : BackendResponse) : Except GenExc String :=
  match resp with
  | .raised (.apiStatus code msg) =>
    if code = 410 then .error (.valueError (retiredMsg model))
    else .error (.apiStatus code msg)
  | .raised (.httpError msg) => .error (.httpError msg)
  | .raised (.valueError msg) => .error (.valueError msg)
  | .raised (.other msg) => .error (.other msg)
  | .completed c =>
    match completionContent c with
    | none => .error (.valueError "Empty response from Hugging Face Router API")
    | some g =>
      if g = "" then
        .error (.valueError "Empty response from Hugging Face Router API")
      else .ok (pyStrip g)

/-! ### Item dicts and the orchestrating PlanBuilder calls -/

/-- A `to_plan_item` dict: keys `type`, `id`, `title`, `start`, `end`
(`end` is present on event dicts only; a missing key reads as `none`). -/
structure ItemDict where
  type : String
  id : String
  title : Option String
  start : Option PyDateTime
  end_ : Option PyDateTime
deriving DecidableEq

def eventItemOf (d : ItemDict) : PlanSourceItem :=
  ⟨d.title.getD "Без названия", d.start, d.end_, "event"⟩

def taskItemOf (d : ItemDict) : PlanSourceItem :=
  ⟨d.title.getD "Без названия", d.start, none, "task"⟩

/-- The `items` list assembled at the top of `PlanBuilder.build_plan`:
events first, then tasks, in their given order. -/
def buildPlanItems (tasks events : List ItemDict) : List PlanSourceItem :=
  events.map eventItemOf ++ tasks.map taskItemOf

/-- `PlanBuilder.build_plan`: normalize, resolve the timezone, render the
prompt and call the gateway. -/
def build_plan (backend : String → BackendResponse) (model : String)
    (now : PyDateTime) (tasks events : List ItemDict)
    (instructions : Option String) : Except GenExc String :=
  let items := buildPlanItems tasks events
  let tzinfo := detect_timezone items (now.tz.getD utcTz)
  let prompt := build_prompt now tzinfo
    (items.filter (fun i => i.item_type == "task"))
    (items.filter (fun i => i.item_type == "event"))
    instructions
  generate model (backend prompt)

/-- `PlanBuilder.revise_plan`: render the revision prompt, strip it, call
the gateway. -/
def revise_plan (backend : String → BackendResponse) (model : String)
    (previous_plan modifications : String)
    (instructions : Option String) : Except GenExc String :=
  generate model
    (backend (pyStrip (revise_prompt previous_plan modifications instructions)))

/-! ### Telegram handlers (telegram_bot.py) -/

/-- Which gateway exceptions the handlers catch:
`except (httpx.HTTPError, ValueError)`. -/
def caught_by_handler : GenExc → Bool
  | .valueError _ => true
  | .httpError _ => true
  | .apiStatus _ _ => false
  | .other _ => false

/-- Python `str(exc)`. -/
def excStr : GenExc → String
  | .apiStatus _ msg => msg
  | .httpError msg => msg
  | .valueError msg => msg
  | .other msg => msg

def plan_apology (e : GenExc) : String :=
  "Не удалось построить расписание с помощью модели: " ++ excStr e ++
    ". Попробуйте еще раз позже."

def adjust_apology (e : GenExc) : String :=
  "Не удалось применить правки с помощью модели: " ++ excStr e ++
    ". Попробуйте еще раз позже."

/-- The instruction merging at the top of `handle_plan_command`:
`if args: instructions = f"{instructions}. {args}" if instructions else args`. -/
def combineInstructions (stored args : Option String) : Option String :=
  match args with
  | none => stored
  | some a =>
    if a = "" then stored
    else
      match stored with
      | some i => if i = "" then some a else some (i ++ ". " ++ a)
      | none => some a

/-- `USER_LAST_PLANS[user] = text`. -/
def dictInsert (m : Nat → Option String) (k : Nat) (v : String) :
    Nat → Option String :=
  fun k2 => if k2 = k then some v else m k2

/-- Result of one handler call: the reply (or, in the `.error` case, the
exception that escaped the handler), the final `USER_LAST_PLANS` map, and
counters for gateway calls and for reads/writes of `USER_LAST_PLANS`. -/
structure HandlerOutcome where
  result : Except GenExc String
  plans : Nat → Option String
  gatewayCalls : Nat
  planReads : Nat
  planWrites : Nat

/-- `handle_plan_command` from the instruction merge onward; the fetched
task/event dicts are inputs. -/
def handle_plan_command (backend : String → BackendResponse) (model : String)
    (user : Nat) (args : Option String) (instrs plans : Nat → Option String)
    (now : PyDateTime) (tasks events : List ItemDict) : HandlerOutcome :=
  let instructions := combineInstructions (instrs user) args
  match build_plan backend model now tasks events instructions with
  | .ok plan_text => ⟨.ok plan_text, dictInsert plans user plan_text, 1, 0, 1⟩
  | .error e =>
    if caught_by_handler e then ⟨.ok (plan_apology e), plans, 1, 0, 0⟩
    else ⟨.error e, plans, 1, 0, 0⟩

/-- `handle_adjust_plan_command`. -/
def handle_adjust_plan_command (backend : String → BackendResponse)
    (model : String) (user : Nat) (args : Option String)
    (instrs plans : Nat → Option String) : HandlerOutcome :=
  if pyTruthyStr args = false then
    ⟨.ok "Опишите, какие правки нужно внести в расписание.", plans, 0, 0, 0⟩
  else
    match plans user with
    | none =>
      ⟨.ok "Сначала запросите план командой /plan, а затем повторите попытку.",
        plans, 0, 1, 0⟩
    | some p =>
      if p = "" then
        ⟨.ok "Сначала запросите план командой /plan, а затем повторите попытку.",
          plans, 0, 1, 0⟩
      else
        match revise_plan backend model p (args.getD "") (instrs user) with
        | .ok updated => ⟨.ok updated, dictInsert plans user updated, 1, 1, 1⟩
        | .error e =>
          if caught_by_handler e then ⟨.ok (adjust_apology e), plans, 1, 1, 0⟩
          else ⟨.error e, plans, 1, 1, 0⟩

def emptyStore : Nat → Option String := fun _ => none

/-! ### Claim C1 -/

/-- Claim C1 (amended): whenever the gateway call raises during
`handle_plan_command` or `handle_adjust_plan_command`, the stored
`USER_LAST_PLANS` map is exactly what it was before the call; when the
raised exception is of a class the handler catches (`ValueError` or
`httpx.HTTPError`), the handler replies with the apology message.  An
uncaught exception (e.g. a re-raised `APIStatusError` with a status other
than 410) propagates out of the handler instead of producing an apology,
still leaving the store unchanged. -/
theorem claim_C1_failure_keeps_last_plan :
    (∀ (backend : String → BackendResponse) (model : String) (user : Nat)
        (args : Option String) (instrs plans : Nat → Option String)
        (now : PyDateTime) (tasks events : List ItemDict) (e : GenExc),
      build_plan backend model now tasks events
          (combineInstructions (instrs user) args) = .error e →
      (handle_plan_command backend model user args instrs plans
          now tasks events).plans = plans ∧
      (caught_by_handler e = true →
        (handle_plan_command backend model user args instrs plans
          now tasks events).result = .ok (plan_apology e)))
    ∧ (∀ (backend : String → BackendResponse) (model : String) (user : Nat)
        (a p : String) (instrs plans : Nat → Option String) (e : GenExc),
      plans user = some p → p ≠ "" → a ≠ "" →
      revise_plan backend model p a (instrs user) = .error e →
      (handle_adjust_plan_command backend model user (some a) instrs plans).plans
        = plans ∧
      (caught_by_handler e = true →
        (handle_adjust_plan_command backend model user (some a) instrs
          plans).result = .ok (adjust_apology e))) := by
  constructor
  · intro backend model user args instrs plans now tasks events e h
    simp only [handle_plan_command, h]
    constructor
    · split <;> rfl
    · intro hc
      simp [hc]
  · intro backend model user a p instrs plans e hp hpne ha hrev
    have ht : pyTruthyStr (some a) = true := by simp [pyTruthyStr, ha]
    simp only [handle_adjust_plan_command, ht, hp, hpne, Option.getD_some,
      Bool.true_eq_false, if_false, ite_false, hrev]
    constructor
    · split <;> rfl
    · intro hc
      simp [hc]

theorem claim_C1_failure_keeps_last_plan_witness :
    (handle_plan_command (fun _ => .raised (.apiStatus 410 "Gone")) "m" 1 none
        emptyStore emptyStore ⟨0, some utcTz⟩ [] []).plans = emptyStore ∧
    (handle_plan_command (fun _ => .raised (.apiStatus 410 "Gone")) "m" 1 none
        emptyStore emptyStore ⟨0, some utcTz⟩ [] []).result
      = .ok (plan_apology (.valueError (retiredMsg "m"))) := by
  obtain ⟨h1, _⟩ := claim_C1_failure_keeps_last_plan
  obtain ⟨ha, hb⟩ := h1 (fun _ => .raised (.apiStatus 410 "Gone")) "m" 1 none
    emptyStore emptyStore ⟨0, some utcTz⟩ [] []
    (.valueError (retiredMsg "m")) rfl
  exact ⟨ha, hb rfl⟩

/-- Claim C1, counterexample to the claim as stated: a backend rejection
with status 500 is re-raised by `generate` as an `APIStatusError`, which
`handle_plan_command` does not catch, so the operation does not return an
apology message (the exception escapes); the stored plan entry is still
unchanged. -/
theorem claim_C1_uncaught_status_counterexample :
    (handle_plan_command (fun _ => .raised (.apiStatus 500 "Internal Server Error"))
        "m" 1 none emptyStore emptyStore ⟨0, some utcTz⟩ [] []).result
      = .error (.apiStatus 500 "Internal Server Error")
    ∧ (handle_plan_command (fun _ => .raised (.apiStatus 500 "Internal Server Error"))
        "m" 1 none emptyStore emptyStore ⟨0, some utcTz⟩ [] []).plans 1 = none :=
  ⟨rfl, rfl⟩

/-! ### Claim C6 -/

/-- Claim C6: a backend rejection with the gone/retired status (HTTP 410)
makes the gateway fail with the model-retired `ValueError`, whose message
contains the explicit guidance to reconfigure the model identifier
(the `HUGGINGFACE_MODEL` environment variable). -/
theorem claim_C6_model_retired_guidance (model msg : String) :
    generate model (.raised (.apiStatus 410 msg)) =
      .error (.valueError (retiredMsg model)) ∧
    ∃ pre post, retiredMsg model =
      pre ++ "Обновите переменную окружения HUGGINGFACE_MODEL" ++ post := by
  refine ⟨rfl, "Модель Hugging Face \x27" ++ model ++ "\x27 более недоступна. ",
    ".", ?_⟩
  apply strExt
  simp only [retiredMsg, strData_append, List.append_assoc]
  congr 1

/-! ### Claim C7 -/

/-- Claim C7: a user with no stored plan who calls adjust with a non-empty
modification text gets the build-a-plan-first message, the gateway is not
called, and the plan store is unchanged. -/
theorem claim_C7_adjust_without_plan (backend : String → BackendResponse)
    (model : String) (user : Nat) (a : String)
    (instrs plans : Nat → Option String)
    (hnone : plans user = none) (ha : a ≠ "") :
    (handle_adjust_plan_command backend model user (some a) instrs plans).result
      = .ok "Сначала запросите план командой /plan, а затем повторите попытку."
    ∧ (handle_adjust_plan_command backend model user (some a) instrs
        plans).gatewayCalls = 0
    ∧ (handle_adjust_plan_command backend model user (some a) instrs
        plans).plans = plans := by
  have ht : pyTruthyStr (some a) = true := by simp [pyTruthyStr, ha]
  simp [handle_adjust_plan_command, ht, hnone]

theorem claim_C7_adjust_without_plan_witness :
    (handle_adjust_plan_command (fun _ => .completed ⟨[]⟩) "m" 5
        (some "перенеси обед") emptyStore emptyStore).result
      = .ok "Сначала запросите план командой /plan, а затем повторите попытку."
    ∧ (handle_adjust_plan_command (fun _ => .completed ⟨[]⟩) "m" 5
        (some "перенеси обед") emptyStore emptyStore).gatewayCalls = 0
    ∧ (handle_adjust_plan_command (fun _ => .completed ⟨[]⟩) "m" 5
        (some "перенеси обед") emptyStore emptyStore).plans = emptyStore :=
  claim_C7_adjust_without_plan (fun _ => .completed ⟨[]⟩) "m" 5
    "перенеси обед" emptyStore emptyStore rfl (by decide)

/-! ### Claim C9 -/

/-- Claim C9: when adjust is invoked with no modification text (absent or
empty argument), the missing-argument check fires before the stored-plan
check: the reply is the describe-your-changes prompt for every state of the
plan store (hence even for a user who never built a plan), and the plan
store is neither read nor written, nor is the gateway called. -/
theorem claim_C9_args_check_first (backend : String → BackendResponse)
    (model : String) (user : Nat) (args : Option String)
    (instrs plans : Nat → Option String)
    (h : args = none ∨ args = some "") :
    (handle_adjust_plan_command backend model user args instrs plans).result
      = .ok "Опишите, какие правки нужно внести в расписание."
    ∧ (handle_adjust_plan_command backend model user args instrs
        plans).planReads = 0
    ∧ (handle_adjust_plan_command backend model user args instrs
        plans).planWrites = 0
    ∧ (handle_adjust_plan_command backend model user args instrs
        plans).gatewayCalls = 0
    ∧ (handle_adjust_plan_command backend model user args instrs
        plans).plans = plans := by
  rcases h with h | h <;> subst h <;>
    simp [handle_adjust_plan_command, pyTruthyStr]

theorem claim_C9_args_check_first_witness :
    (handle_adjust_plan_command (fun _ => .completed ⟨[]⟩) "m" 9 none
        emptyStore emptyStore).result
      = .ok "Опишите, какие правки нужно внести в расписание."
    ∧ (handle_adjust_plan_command (fun _ => .completed ⟨[]⟩) "m" 9 none
        emptyStore emptyStore).planReads = 0
    ∧ (handle_adjust_plan_command (fun _ => .completed ⟨[]⟩) "m" 9 none
        emptyStore emptyStore).planWrites = 0
    ∧ (handle_adjust_plan_command (fun _ => .completed ⟨[]⟩) "m" 9 none
        emptyStore emptyStore).gatewayCalls = 0
    ∧ (handle_adjust_plan_command (fun _ => .completed ⟨[]⟩) "m" 9 none
        emptyStore emptyStore).plans = emptyStore :=
  claim_C9_args_check_first (fun _ => .completed ⟨[]⟩) "m" 9 none
    emptyStore emptyStore (Or.inl rfl)

/-! ### Claim C10 -/

theorem generate_completed_eq (model : String) (c : Completion) :
    generate model (.completed c) =
      match completionContent c with
      | none => .error (.valueError "Empty response from Hugging Face Router API")
      | some g =>
        if g = "" then
          .error (.valueError "Empty response from Hugging Face Router API")
        else .ok (pyStrip g) := rfl

/-- Claim C10: on a completed backend response the gateway fails exactly
when there are no choices or the message content is absent or the empty
string; content that is non-empty (even all-whitespace) is a success
returned stripped, so a whitespace-only response is stored as the user's
last plan as the empty string. -/
theorem claim_C10_empty_result_classification :
    (∀ (model : String) (c : Completion),
      (∃ e, generate model (.completed c) = .error e) ↔
        (c.choices = [] ∨ completionContent c = none ∨
          completionContent c = some ""))
    ∧ (∀ (model : String) (c : Completion) (s : String),
      completionContent c = some s → s ≠ "" →
      generate model (.completed c) = .ok (pyStrip s))
    ∧ (handle_plan_command (fun _ => .completed ⟨[⟨⟨some " "⟩⟩]⟩) "m" 7 none
        emptyStore emptyStore ⟨0, some utcTz⟩ [] []).plans 7 = some "" := by
  refine ⟨?_, ?_, rfl⟩
  · intro model c
    constructor
    · rintro ⟨e, he⟩
      cases hcc : completionContent c with
      | none => exact Or.inr (Or.inl rfl)
      | some g =>
        by_cases hg : g = ""
        · subst hg
          exact Or.inr (Or.inr rfl)
        · exfalso
          simp only [generate_completed_eq, hcc, if_neg hg] at he
          exact Except.noConfusion he
    · intro h
      rcases h with h | h | h
      · have hcc : completionContent c = none := by
          simp [completionContent, h]
        refine ⟨.valueError "Empty response from Hugging Face Router API", ?_⟩
        simp only [generate_completed_eq, hcc]
      · refine ⟨.valueError "Empty response from Hugging Face Router API", ?_⟩
        simp only [generate_completed_eq, h]
      · refine ⟨.valueError "Empty response from Hugging Face Router API", ?_⟩
        simp [generate_completed_eq, h]
  · intro model c s hcc hs
    simp only [generate_completed_eq, hcc]
    rw [if_neg hs]

theorem claim_C10_empty_result_classification_witness :
    generate "m" (.completed ⟨[⟨⟨some " план "⟩⟩]⟩) = .ok (pyStrip " план ")
    ∧ (∃ e, generate "m" (.completed ⟨[]⟩) = .error e) :=
  ⟨claim_C10_empty_result_classification.2.1 "m" ⟨[⟨⟨some " план "⟩⟩]⟩
    " план " rfl (by decide),
   (claim_C10_empty_result_classification.1 "m" ⟨[]⟩).2 (Or.inl rfl)⟩

/-! ### Todoist fetcher (todoist.py) -/

structure TRawDue where
  datetime : Option String
  date : Option String
deriving DecidableEq

structure TRawTask where
  id : String
  content : Option String
  due : Option TRawDue
deriving DecidableEq

/-- `_parse_datetime` (todoist.py): replace a trailing Z marker, parse via
`datetime.fromisoformat` (the injected `parseIso`, `none` = `ValueError`),
force UTC on a naive result; parse failure yields `None`. -/
def todoist_parse_datetime (parseIso : String → Option PyDateTime)
    (value : String) : Option PyDateTime :=
  match parseIso (value.replace "Z" "+00:00") with
  | none => none
  | some dt => some (if dt.tz.isNone then ⟨dt.wall, some utcTz⟩ else dt)

structure TodoistTask where
  id : String
  content : String
  due_datetime : Option PyDateTime
deriving DecidableEq

/-- The per-item body of `TodoistClient.fetch_tasks`. -/
def taskOfRaw (parseIso : String → Option PyDateTime) (item : TRawTask) :
    TodoistTask :=
  let due_datetime : Option PyDateTime :=
    match item.due with
    | none => none
    | some due =>
      match pyOrOptStr due.datetime due.date with
      | none => none
      | some s => if s = "" then none else todoist_parse_datetime parseIso s
  ⟨item.id, item.content.getD "Без названия", due_datetime⟩

def fetch_tasks (parseIso : String → Option PyDateTime)
    (data : List TRawTask) : List TodoistTask :=
  data.map (taskOfRaw parseIso)

def TodoistTask.to_plan_item (t : TodoistTask) : ItemDict :=
  ⟨"task", t.id, some t.content, t.due_datetime, none⟩

/-! ### Google Calendar fetcher (google_calendar.py) -/

structure GEventTime where
  dateTime : Option String
  date : Option String
deriving DecidableEq

structure GRawEvent where
  id : Option String
  summary : Option String
  start : GEventTime
  end_ : GEventTime
deriving DecidableEq

structure CalendarEvent where
  event_id : String
  summary : String
  start : PyDateTime
  end_ : PyDateTime
deriving DecidableEq

/-- `_parse_datetime` (google_calendar.py): same parsing, but a `none`
result models the uncaught `ValueError` from `datetime.fromisoformat`. -/
def google_parse_datetime (parseIso : String → Option PyDateTime)
    (value : String) : Option PyDateTime :=
  match parseIso (value.replace "Z" "+00:00") with
  | none => none
  | some dt => some (if dt.tz.isNone then ⟨dt.wall, some utcTz⟩ else dt)

/-- `if len(s) == 10: s += suffix` — bare dates get a time suffix. -/
def padDateStr (suffix s : String) : String :=
  if s.length = 10 then s ++ suffix else s

/-- Outcome of one iteration of the item loop in
`GoogleCalendarClient.fetch_events`: skip the item (`continue`), append a
normalized event, or abort with an uncaught `ValueError`. -/
inductive FetchItemStep where
  | skip
  | oneEvent (e : CalendarEvent)
  | fail (msg : String)
deriving DecidableEq

/-- One iteration of the item loop: items missing a start or end string
are skipped; bare 10-character dates get a time suffix; a parse failure
aborts the fetch. -/
def fetchEventsItem (parseIso : String → Option PyDateTime)
    (item : GRawEvent) : FetchItemStep :=
  match pyOrOptStr item.start.dateTime item.start.date,
      pyOrOptStr item.end_.dateTime item.end_.date with
  | some s0, some e0 =>
    if s0 = "" ∨ e0 = "" then .skip
    else
      match google_parse_datetime parseIso (padDateStr "T00:00:00+00:00" s0),
          google_parse_datetime parseIso (padDateStr "T23:59:00+00:00" e0) with
      | some start, some stop =>
        .oneEvent ⟨item.id.getD "", item.summary.getD "Без названия",
          start, stop⟩
      | _, _ => .fail "ValueError: Invalid isoformat string"
  | _, _ => .skip

/-- The item loop of `GoogleCalendarClient.fetch_events`. -/
def fetchEventsLoop (parseIso : String → Option PyDateTime) :
    List GRawEvent → Except String (List CalendarEvent)
  | [] => .ok []
  | item :: rest =>
    match fetchEventsItem parseIso item with
    | .skip => fetchEventsLoop parseIso rest
    | .oneEvent e =>
      match fetchEventsLoop parseIso rest with
      | .ok evs => .ok (e :: evs)
      | .error err => .error err
    | .fail msg => .error msg

/-- Stable insertion used to model Python's stable `sorted(events,
key=lambda event: event.start)`. -/
def insertByStart (e : CalendarEvent) :
    List CalendarEvent → List CalendarEvent
  | [] => [e]
  | x :: xs =>
    if absMinutes e.start < absMinutes x.start then e :: x :: xs
    else x :: insertByStart e xs

def sortEventsByStart : List CalendarEvent → List CalendarEvent
  | [] => []
  | e :: es => insertByStart e (sortEventsByStart es)

def fetch_events (parseIso : String → Option PyDateTime)
    (items : List GRawEvent) : Except String (List CalendarEvent) :=
  match fetchEventsLoop parseIso items with
  | .ok evs => .ok (sortEventsByStart evs)
  | .error e => .error e

def CalendarEvent.to_plan_item (e : CalendarEvent) : ItemDict :=
  ⟨"event", e.event_id, some e.summary, some e.start, some e.end_⟩

theorem mem_insertByStart {x e : CalendarEvent} {l : List CalendarEvent} :
    x ∈ insertByStart e l ↔ x = e ∨ x ∈ l := by
  induction l with
  | nil => simp [insertByStart]
  | cons y ys ih =>
    unfold insertByStart
    split
    · simp
    · simp only [List.mem_cons, ih]
      tauto

theorem mem_sortEventsByStart {x : CalendarEvent} {l : List CalendarEvent} :
    x ∈ sortEventsByStart l ↔ x ∈ l := by
  induction l with
  | nil => simp [sortEventsByStart]
  | cons e es ih =>
    simp [sortEventsByStart, mem_insertByStart, ih]

/-! ### Claim C4 -/

/-- Claim C4: every normalized planning item produced from fetched tasks
and fetched events satisfies the shape invariant: an event item has both
start and end present or both absent (here: always both present), and a
task item never has an end. -/
theorem claim_C4_item_shape_invariant (parseIso : String → Option PyDateTime)
    (rawTasks : List TRawTask) (rawEvents : List GRawEvent)
    (evs : List CalendarEvent)
    (hfetch : fetch_events parseIso rawEvents = .ok evs) :
    ∀ i ∈ buildPlanItems
        ((fetch_tasks parseIso rawTasks).map TodoistTask.to_plan_item)
        (evs.map CalendarEvent.to_plan_item),
      (i.item_type = "event" → i.start.isSome ∧ i.end_.isSome) ∧
      (i.item_type = "task" → i.end_ = none) := by
  intro i hi
  unfold buildPlanItems at hi
  rw [List.mem_append] at hi
  rcases hi with hi | hi
  · rw [List.mem_map] at hi
    obtain ⟨d, hd, rfl⟩ := hi
    rw [List.mem_map] at hd
    obtain ⟨ev, hev, rfl⟩ := hd
    refine ⟨fun _ => ?_, fun h => ?_⟩
    · exact ⟨rfl, rfl⟩
    · exact absurd h (by simp [eventItemOf])
  · rw [List.mem_map] at hi
    obtain ⟨d, hd, rfl⟩ := hi
    refine ⟨fun h => ?_, fun _ => rfl⟩
    exact absurd h (by simp [taskItemOf])

def c4Parse : String → Option PyDateTime := fun _ => some ⟨540, some utcTz⟩

def c4Raw : GRawEvent :=
  ⟨some "1", some "Standup", ⟨some "2024-01-01T09:00:00+00:00", none⟩,
    ⟨some "2024-01-01T09:30:00+00:00", none⟩⟩

def c4Ev : CalendarEvent := ⟨"1", "Standup", ⟨540, some utcTz⟩, ⟨540, some utcTz⟩⟩

theorem claim_C4_item_shape_invariant_witness :
    ((⟨"Standup", some ⟨540, some utcTz⟩, some ⟨540, some utcTz⟩, "event"⟩ :
        PlanSourceItem).item_type = "event" →
      (⟨"Standup", some ⟨540, some utcTz⟩, some ⟨540, some utcTz⟩, "event"⟩ :
        PlanSourceItem).start.isSome ∧
      (⟨"Standup", some ⟨540, some utcTz⟩, some ⟨540, some utcTz⟩, "event"⟩ :
        PlanSourceItem).end_.isSome) ∧
    ((⟨"Standup", some ⟨540, some utcTz⟩, some ⟨540, some utcTz⟩, "event"⟩ :
        PlanSourceItem).item_type = "task" →
      (⟨"Standup", some ⟨540, some utcTz⟩, some ⟨540, some utcTz⟩, "event"⟩ :
        PlanSourceItem).end_ = none) :=
  claim_C4_item_shape_invariant c4Parse [] [c4Raw] [c4Ev] rfl
    ⟨"Standup", some ⟨540, some utcTz⟩, some ⟨540, some utcTz⟩, "event"⟩
    (by decide)

/-! ### Claim C5 -/

/-- An appended event takes its summary from the raw item, with the
placeholder substituted for an absent summary key. -/
theorem fetchEventsItem_summary {parseIso : String → Option PyDateTime}
    {item : GRawEvent} {e : CalendarEvent}
    (h : fetchEventsItem parseIso item = .oneEvent e) :
    e.summary = item.summary.getD "Без названия" := by
  unfold fetchEventsItem at h
  split at h
  · split at h
    · exact absurd h (by simp)
    · split at h
      · simp only [FetchItemStep.oneEvent.injEq] at h
        rw [← h]
      · exact absurd h (by simp)
  · exact absurd h (by simp)

/-- Every event produced by the fetch loop takes its summary from some raw
item, with the placeholder substituted for an absent summary key. -/
theorem fetchEventsLoop_summary (parseIso : String → Option PyDateTime) :
    ∀ (raws : List GRawEvent) (evs : List CalendarEvent),
      fetchEventsLoop parseIso raws = .ok evs →
      ∀ ev ∈ evs, ∃ r ∈ raws, ev.summary = r.summary.getD "Без названия" := by
  intro raws
  induction raws with
  | nil =>
    intro evs h ev hev
    simp only [fetchEventsLoop, Except.ok.injEq] at h
    subst h
    simp at hev
  | cons item rest ih =>
    intro evs h ev hev
    unfold fetchEventsLoop at h
    split at h
    · obtain ⟨r, hr, hs⟩ := ih evs h ev hev
      exact ⟨r, List.mem_cons_of_mem _ hr, hs⟩
    · rename_i e0 heq
      split at h
      · rename_i evs0 hloop
        simp only [Except.ok.injEq] at h
        subst h
        rcases List.mem_cons.1 hev with hev | hev
        · subst hev
          exact ⟨item, List.mem_cons_self _ _, fetchEventsItem_summary heq⟩
        · obtain ⟨r, hr, hs⟩ := ih evs0 hloop ev hev
          exact ⟨r, List.mem_cons_of_mem _ hr, hs⟩
      · exact absurd h (by simp)
    · exact absurd h (by simp)

theorem fetch_events_ok_split {parseIso : String → Option PyDateTime}
    {raws : List GRawEvent} {evs : List CalendarEvent}
    (h : fetch_events parseIso raws = .ok evs) :
    ∃ evs0, fetchEventsLoop parseIso raws = .ok evs0 ∧
      evs = sortEventsByStart evs0 := by
  unfold fetch_events at h
  cases hl : fetchEventsLoop parseIso raws with
  | ok evs0 =>
    rw [hl] at h
    simp only [Except.ok.injEq] at h
    exact ⟨evs0, rfl, h.symm⟩
  | error e =>
    rw [hl] at h
    exact absurd h (by simp)

/-- Claim C5 (amended): a raw record whose title field is absent receives
the literal placeholder, and, provided no raw record carries a present but
empty title field, every normalized planning item has a non-empty title.
(A raw record with a present empty title keeps the empty string: see the
counterexample.) -/
theorem claim_C5_placeholder_titles (parseIso : String → Option PyDateTime)
    (rawTasks : List TRawTask) (rawEvents : List GRawEvent)
    (evs : List CalendarEvent)
    (hfetch : fetch_events parseIso rawEvents = .ok evs)
    (htasks : ∀ rt ∈ rawTasks, rt.content ≠ some "")
    (hevents : ∀ re ∈ rawEvents, re.summary ≠ some "") :
    (∀ i ∈ buildPlanItems
        ((fetch_tasks parseIso rawTasks).map TodoistTask.to_plan_item)
        (evs.map CalendarEvent.to_plan_item), i.title ≠ "")
    ∧ (∀ rt : TRawTask, rt.content = none →
        (taskOfRaw parseIso rt).content = "Без названия") := by
  constructor
  · intro i hi
    unfold buildPlanItems at hi
    rw [List.mem_append] at hi
    rcases hi with hi | hi
    · rw [List.mem_map] at hi
      obtain ⟨d, hd, rfl⟩ := hi
      rw [List.mem_map] at hd
      obtain ⟨ev, hev, rfl⟩ := hd
      obtain ⟨evs0, hloop, rfl⟩ := fetch_events_ok_split hfetch
      have hev0 : ev ∈ evs0 := mem_sortEventsByStart.1 hev
      obtain ⟨r, hr, hs⟩ := fetchEventsLoop_summary parseIso rawEvents evs0
        hloop ev hev0
      show (eventItemOf (CalendarEvent.to_plan_item ev)).title ≠ ""
      have ht : (eventItemOf (CalendarEvent.to_plan_item ev)).title = ev.summary := rfl
      rw [ht, hs]
      cases hsum : r.summary with
      | none => decide
      | some s =>
        have hne := hevents r hr
        rw [hsum] at hne
        simp only [Option.getD_some]
        intro hcontra
        exact hne (by rw [hcontra])
    · rw [List.mem_map] at hi
      obtain ⟨d, hd, rfl⟩ := hi
      rw [List.mem_map] at hd
      obtain ⟨t, ht, rfl⟩ := hd
      unfold fetch_tasks at ht
      rw [List.mem_map] at ht
      obtain ⟨rt, hrt, rfl⟩ := ht
      show (taskItemOf (TodoistTask.to_plan_item (taskOfRaw parseIso rt))).title ≠ ""
      have heq : (taskItemOf (TodoistTask.to_plan_item (taskOfRaw parseIso rt))).title
          = rt.content.getD "Без названия" := rfl
      rw [heq]
      cases hc : rt.content with
      | none => decide
      | some s =>
        have hne := htasks rt hrt
        rw [hc] at hne
        simp only [Option.getD_some]
        intro hcontra
        exact hne (by rw [hcontra])
  · intro rt h
    simp [taskOfRaw, h]

theorem claim_C5_placeholder_titles_witness :
    (⟨"Без названия", none, none, "task"⟩ : PlanSourceItem).title ≠ ""
    ∧ (taskOfRaw (fun _ => none) ⟨"1", none, none⟩).content = "Без названия" := by
  obtain ⟨h1, h2⟩ := claim_C5_placeholder_titles (fun _ => none)
    [⟨"1", none, none⟩] [] [] rfl (by decide) (by simp)
  exact ⟨h1 ⟨"Без названия", none, none, "task"⟩ (by decide),
    h2 ⟨"1", none, none⟩ rfl⟩

/-- Claim C5, counterexample to the claim as stated: a raw task whose
title field is present but equal to the empty string is normalized to a
planning item with an empty title (the placeholder only covers an absent
field), so "the normalized planning item's title is never empty" fails. -/
theorem claim_C5_empty_title_counterexample :
    (buildPlanItems
      ((fetch_tasks (fun _ => none) [⟨"1", some "", none⟩]).map
        TodoistTask.to_plan_item)
      (([] : List CalendarEvent).map CalendarEvent.to_plan_item)).map
      PlanSourceItem.title = [""] := rfl
